import Mathlib

/-!
Shallow embedding of the searchbase-js SDK (src/src/index.ts, with the
second implementation variant from src/unnamed/part_001) and proofs about
its request builder, error normalization and pagination driver.
-/

namespace Searchbase

/-- Sort direction enum of the SDK (`ASC` / `DESC`). -/
inductive SortDirection
  | ASC
  | DESC
deriving DecidableEq, Repr

/-- A search filter (`Filter` in the source): field, operator, opaque value.
The SDK never interprets `value`, so it is embedded as an uninterpreted
string. -/
structure Filter where
  field : String
  op : String
  value : String
deriving DecidableEq, Repr

/-- A sort directive (`Sort` in the source; `Sort` is a Lean keyword, hence
the name `SortSpec`). -/
structure SortSpec where
  field : String
  direction : SortDirection
deriving DecidableEq, Repr

/-- `SearchOptions` of the source: `none` embeds a field that is absent
(`undefined`) in the JavaScript object. -/
structure SearchOptions where
  index : String
  filters : Option (List Filter)
  sort : Option (List SortSpec)
  select : Option (List String)
  limit : Option Int
  offset : Option Int
deriving DecidableEq, Repr

/-- The `query` object of the request body: `none` means the key is omitted
from the serialized JSON. -/
structure QueryBody where
  index : String
  filters : Option (List Filter)
  sort : Option (List SortSpec)
  select : Option (List String)
  limit : Option Int
  offset : Option Int
deriving DecidableEq, Repr

/-- Request body construction of `search`, src/src/index.ts lines 100-109.
Each spread `...(options.x && \x7b x: options.x \x7d)` adds the key exactly
when `options.x` is truthy: a present array (even empty) is truthy, a number
is truthy iff nonzero. -/
def buildBody (o : SearchOptions) : QueryBody :=
  { index := o.index
    filters := o.filters
    sort := o.sort
    select := o.select
    limit := match o.limit with
      | some n => if n = 0 then none else some n
      | none => none
    offset := match o.offset with
      | some n => if n = 0 then none else some n
      | none => none }

/-- Request body construction of `search` in the variant
src/unnamed/part_001 lines 83-92: identical except the offset spread is
`...(options.offset && options.offset > 0 && \x7b offset: options.offset \x7d)`,
so the offset key is added exactly when the offset is present and strictly
positive. -/
def buildBodyV2 (o : SearchOptions) : QueryBody :=
  { index := o.index
    filters := o.filters
    sort := o.sort
    select := o.select
    limit := match o.limit with
      | some n => if n = 0 then none else some n
      | none => none
    offset := match o.offset with
      | some n => if 0 < n then some n else none
      | none => none }

/-- `Range` of a response (`start`/`end` slice indices). -/
structure Range where
  start : Int
  «end» : Int
deriving DecidableEq, Repr

/-- `SearchResponse`: the decoded success body. Records are opaque to the
SDK, so the type is parametric in the record type `α`. -/
structure SearchResponse (α : Type) where
  total : Int
  range : Range
  records : List α
deriving DecidableEq, Repr

/-- One JSON body, seen through the two views the code takes of it:
`errorData.message` (a string field, `none` when absent) and the unchecked
cast `data as SearchResponse`. -/
structure ParsedBody (α : Type) where
  message : Option String
  asSearchResponse : SearchResponse α
deriving DecidableEq, Repr

/-- Result of calling `response.json()`: the parsed value, or the rejection
message of the parse error. -/
inductive BodyResult (α : Type)
  | ok (b : ParsedBody α)
  | parseError (msg : String)
deriving DecidableEq, Repr

/-- An HTTP response as the transport delivers it: `ok` is the success-status
flag, `status` the numeric code, `body` what `response.json()` would yield. -/
structure HttpResponse (α : Type) where
  ok : Bool
  status : Nat
  body : BodyResult α
deriving DecidableEq, Repr

/-- A JavaScript error value as seen by the catch block: its message and
whether it is an instance of `SearchError`. -/
structure JsError where
  isSearchError : Bool
  message : String
deriving DecidableEq, Repr

/-- Outcome of the raw `fetch` call: a delivered response, or a rejection
(connection error, timeout, ...). -/
inductive FetchResult (α : Type)
  | response (r : HttpResponse α)
  | rejected (e : JsError)
deriving DecidableEq, Repr

/-- Outcome of `fetchWithErrorHandling`: the response (always with
`ok = true`), or a thrown `SearchError` carrying a message. -/
inductive FetchOutcome (α : Type)
  | ok (r : HttpResponse α)
  | searchError (msg : String)
deriving DecidableEq, Repr

/-- `fetchWithErrorHandling`, src/src/index.ts lines 77-96. On a non-ok
status the body is parsed and `errorData.message || generic` picks the body
message when it is a truthy string (absent and empty strings are falsy); a
body parse failure is an exception inside the try, hence caught and wrapped
as a network error; a fetch rejection is likewise wrapped unless it already
is a `SearchError`. -/
def fetchWithErrorHandling {α : Type} (fr : FetchResult α) : FetchOutcome α :=
  match fr with
  | .rejected e =>
      if e.isSearchError then .searchError e.message
      else .searchError ("Network error: " ++ e.message)
  | .response r =>
      if r.ok then .ok r
      else match r.body with
        | .ok b =>
            match b.message with
            | some m =>
                if m = "" then .searchError ("HTTP error! status: " ++ toString r.status)
                else .searchError m
            | none => .searchError ("HTTP error! status: " ++ toString r.status)
        | .parseError m => .searchError ("Network error: " ++ m)

/-- Outcome of one `search` call: a decoded `SearchResponse`, a thrown
`SearchError`, or a raw (non-`SearchError`) exception escaping `search`. -/
inductive SearchOutcome (α : Type)
  | ok (r : SearchResponse α)
  | searchError (msg : String)
  | rawError (msg : String)
deriving DecidableEq, Repr

/-- The result-handling part of `search`, src/src/index.ts lines 120-122:
run `fetchWithErrorHandling`, then `const data = await response.json()`
OUTSIDE any try/catch, and return `data as SearchResponse` unchanged. A
body parse failure at this point escapes as the raw error. -/
def searchRun {α : Type} (fr : FetchResult α) : SearchOutcome α :=
  match fetchWithErrorHandling fr with
  | .searchError m => .searchError m
  | .ok r =>
      match r.body with
      | .ok b => .ok b.asSearchResponse
      | .parseError m => .rawError m

/-- An error escaping one page fetch, as seen by the consumer of
`searchAll`: either a `SearchError` or a raw exception. -/
inductive ErrOut
  | searchError (msg : String)
  | rawError (msg : String)
deriving DecidableEq, Repr

/-- How a (fuel-bounded) run of `searchAll` ended: the do-while condition
became false (`done`), a page fetch threw (`failed`), or the fuel ran out
with the loop still going (`fuelOut`). -/
inductive RunOutcome
  | done
  | failed (e : ErrOut)
  | fuelOut
deriving DecidableEq, Repr

/-- Observable trace of a `searchAll` run: the request bodies issued, the
`offset` values passed to `search` (before body construction), the record
batches yielded, and how the run ended. -/
structure Trace (α : Type) where
  requests : List QueryBody
  offsets : List Int
  batches : List (List α)
  outcome : RunOutcome
deriving DecidableEq, Repr

/-- The error (if any) carried by a `SearchOutcome`. -/
def errOf {α : Type} : SearchOutcome α → Option ErrOut
  | .ok _ => none
  | .searchError m => some (.searchError m)
  | .rawError m => some (.rawError m)

/-- The loop body of `searchAll`, src/src/index.ts lines 133-145, run with
explicit fuel. `k` counts the pages fetched so far (indexing the responses
of the server), `offset` and `totalFetched` are the local generator state.
Each iteration issues `search` with `limit = 100` and the current offset,
yields the records on success, then sets `totalFetched += records.length`,
`offset = range.end`, `total = response.total`, and repeats while
`totalFetched < total`. A thrown error ends the run with no batch for the
failing page. -/
def searchAllLoop {α : Type} (o : SearchOptions) (server : Nat → FetchResult α) :
    Nat → Nat → Int → Int → Trace α
  | 0, _, _, _ => ⟨[], [], [], .fuelOut⟩
  | fuel + 1, k, offset, totalFetched =>
    let req := buildBody { index := o.index, filters := o.filters, sort := o.sort,
                           select := o.select, limit := some 100, offset := some offset }
    match searchRun (server k) with
    | .ok resp =>
        let tf2 := totalFetched + (resp.records.length : Int)
        if tf2 < resp.total then
          let rest := searchAllLoop o server fuel (k + 1) resp.range.«end» tf2
          ⟨req :: rest.requests, offset :: rest.offsets, resp.records :: rest.batches, rest.outcome⟩
        else
          ⟨[req], [offset], [resp.records], .done⟩
    | .searchError m => ⟨[req], [offset], [], .failed (.searchError m)⟩
    | .rawError m => ⟨[req], [offset], [], .failed (.rawError m)⟩

/-- A full `searchAll` traversal: the loop started from
`offset = 0`, `totalFetched = 0` (src/src/index.ts lines 128-131). The
caller-supplied options carry no limit/offset (the TypeScript type omits
them); the driver overrides both on every page. -/
def searchAllRun {α : Type} (o : SearchOptions) (server : Nat → FetchResult α)
    (fuel : Nat) : Trace α :=
  searchAllLoop o server fuel 0 0 0

/-- Total number of records in a list of batches, as the integer the
generator accumulates in `totalFetched`. -/
def sumLens {α : Type} (bs : List (List α)) : Int :=
  bs.foldr (fun b acc => (b.length : Int) + acc) 0

/-- Cumulative record count over the first `k` responses of the server (counting
only successful ones), i.e. the value `totalFetched` holds when page `k` is
requested, provided pages `0..k-1` all succeeded. -/
def cumLen {α : Type} (server : Nat → FetchResult α) : Nat → Int
  | 0 => 0
  | k + 1 => cumLen server k +
      (match searchRun (server k) with
       | .ok r => (r.records.length : Int)
       | _ => 0)

/-- Whether a `SearchOutcome` is a thrown `SearchError` (as opposed to a
success or a raw non-`SearchError` exception). -/
def isSearchErrorOutcome {α : Type} : SearchOutcome α → Bool
  | .searchError _ => true
  | _ => false

/-- A minimal caller query for `searchAll` runs: just an index name, as in
the repository test suite. -/
def optsIdx : SearchOptions := ⟨"test-index", none, none, none, none, none⟩

/-- A server whose first page reports `total = 0` with no records. -/
def zeroTotalServer : Nat → FetchResult Nat :=
  fun _ => .response ⟨true, 200, .ok ⟨none, ⟨0, ⟨0, 0⟩, []⟩⟩⟩

/-- The three-record, page-size-2-shaped server of the repository test
suite: page 0 returns records 1, 2 with range 0..2, page 1 returns record 3
with range 2..3, later (never reached) pages return empty pages of the same
total. -/
def pages3Server : Nat → FetchResult Nat
  | 0 => .response ⟨true, 200, .ok ⟨none, ⟨3, ⟨0, 2⟩, [1, 2]⟩⟩⟩
  | 1 => .response ⟨true, 200, .ok ⟨none, ⟨3, ⟨2, 3⟩, [3]⟩⟩⟩
  | _ + 2 => .response ⟨true, 200, .ok ⟨none, ⟨3, ⟨3, 3⟩, []⟩⟩⟩

/-- A server whose first page succeeds (2 of 3 records) and whose second
page fails with HTTP 500 and a structured message. -/
def failServer : Nat → FetchResult Nat
  | 0 => .response ⟨true, 200, .ok ⟨none, ⟨3, ⟨0, 2⟩, [1, 2]⟩⟩⟩
  | _ + 1 => .response ⟨false, 500, .ok ⟨some "boom", ⟨0, ⟨0, 0⟩, []⟩⟩⟩

/-- A pathological server: every page succeeds with a positive total, an
empty records array, and `range.end` equal to the requested offset (always
0), so `totalFetched` never advances. -/
def emptyPagesServer : Nat → FetchResult Nat :=
  fun _ => .response ⟨true, 200, .ok ⟨none, ⟨5, ⟨0, 0⟩, []⟩⟩⟩

/-- A well-behaved server with constant total 2 delivering one record per
page. -/
def steadyServer : Nat → FetchResult Nat :=
  fun k => .response ⟨true, 200, .ok ⟨none, ⟨2, ⟨(k : Int), (k : Int) + 1⟩, [k]⟩⟩⟩

/-- A server on which every page succeeds with one record but the reported
total grows faster than the records delivered: page `k` reports total
`k + 2` after `k + 1` records have been delivered. -/
def growingServer : Nat → FetchResult Nat :=
  fun k => .response ⟨true, 200, .ok ⟨none, ⟨(k : Int) + 2, ⟨(k : Int), (k : Int) + 1⟩, [k]⟩⟩⟩

/-- A server that overshoots: it reports total 1 but returns two records on
the first page. -/
def overshootServer : Nat → FetchResult Nat :=
  fun _ => .response ⟨true, 200, .ok ⟨none, ⟨1, ⟨0, 2⟩, [7, 8]⟩⟩⟩

/-- Every page of the server succeeds and carries at least one record. -/
def allPagesNonempty (server : Nat → FetchResult Nat) : Prop :=
  ∀ k, ∃ r, searchRun (server k) = SearchOutcome.ok r ∧ r.records ≠ []

/-- No amount of fuel makes the traversal of this server complete: the
do-while condition never becomes false. -/
def neverCompletes (server : Nat → FetchResult Nat) : Prop :=
  ∀ fuel, (searchAllRun optsIdx server fuel).outcome = RunOutcome.fuelOut

/-- C8: on a success-status response, `search` returns the decoded body
unchanged: the outcome is exactly the `SearchResponse` view of the parsed
body, so the returned records, range and total are those the transport
delivered, with no client-side reshaping. -/
theorem search_success_returns_decoded_body {α : Type} (status : Nat) (b : ParsedBody α) :
    searchRun (.response ⟨true, status, .ok b⟩) = .ok b.asSearchResponse := rfl

/-- C5: the code contradicts its own documentation (README: all errors
thrown by the SDK are `SearchError` instances). A success-status response
whose body fails to parse is decoded by `search` outside the try/catch of
`fetchWithErrorHandling`, so the raw parse error escapes unwrapped: the
outcome is a `rawError`, not a `SearchError`, and carries no
"Network error: " prefix. -/
theorem search_success_malformed_body_raw_error :
    searchRun (α := Nat) (.response ⟨true, 200, .parseError "Unexpected end of JSON input"⟩)
      = .rawError "Unexpected end of JSON input"
  ∧ isSearchErrorOutcome
      (searchRun (α := Nat) (.response ⟨true, 200, .parseError "Unexpected end of JSON input"⟩))
      = false := ⟨rfl, rfl⟩

/-- C4 (amended): on a failure-status response whose body parses as JSON, a
nonempty `message` string becomes the `SearchError` message and an absent or
empty `message` yields the generic "HTTP error! status: \x7bcode\x7d"
message; but a failure-status response whose body does NOT parse is wrapped
as a network error (the parse failure is thrown inside the try block), not
given the generic HTTP message. -/
theorem http_failure_message_selection {α : Type} (status : Nat) (b : ParsedBody α) (pm : String) :
    (∀ m, b.message = some m → ¬ m = "" →
      searchRun (.response ⟨false, status, .ok b⟩) = .searchError m)
  ∧ (b.message = none →
      searchRun (.response ⟨false, status, .ok b⟩)
        = .searchError ("HTTP error! status: " ++ toString status))
  ∧ (b.message = some "" →
      searchRun (.response ⟨false, status, .ok b⟩)
        = .searchError ("HTTP error! status: " ++ toString status))
  ∧ searchRun (α := α) (.response ⟨false, status, .parseError pm⟩)
      = .searchError ("Network error: " ++ pm) := by
  refine ⟨?_, ?_, ?_, rfl⟩
  · intro m hm hne
    simp [searchRun, fetchWithErrorHandling, hm, hne]
  · intro hm
    simp [searchRun, fetchWithErrorHandling, hm]
  · intro hm
    simp [searchRun, fetchWithErrorHandling, hm]

/-- C4 counterexample: at a failure status 500 with a body that does not
parse as JSON (so no parseable message is present), the error message is the
wrapped network error, and it differs from the generic
"HTTP error! status: 500" the claim prescribes for this case. -/
theorem http_failure_unparseable_body_cex :
    searchRun (α := Nat) (.response ⟨false, 500, .parseError "Unexpected token"⟩)
      = .searchError ("Network error: " ++ "Unexpected token")
  ∧ (("Network error: " ++ "Unexpected token") == ("HTTP error! status: " ++ toString 500))
      = false := by
  exact ⟨rfl, by decide⟩

/-- C3 (amended): for every input, the built body contains `index` always
and copies `filters`, `sort`, `select` exactly when present — including
present-but-empty arrays, which ARE included; `limit` is omitted exactly
when absent or zero, and any nonzero limit is included; in the primary
variant `offset` is omitted exactly when absent or zero and any nonzero
offset (negative ones included) is kept; the part_001 variant instead omits
`offset` exactly when it is absent or not strictly positive. -/
theorem buildBody_field_presence (o : SearchOptions) :
    (buildBody o).index = o.index
  ∧ (buildBody o).filters = o.filters
  ∧ (buildBody o).sort = o.sort
  ∧ (buildBody o).select = o.select
  ∧ ((buildBody o).limit = none ↔ (o.limit = none ∨ o.limit = some 0))
  ∧ ((buildBody o).offset = none ↔ (o.offset = none ∨ o.offset = some 0))
  ∧ (∀ n, o.limit = some n → ¬ n = 0 → (buildBody o).limit = some n)
  ∧ (∀ n, o.offset = some n → ¬ n = 0 → (buildBody o).offset = some n)
  ∧ ((buildBodyV2 o).offset = none ↔ (o.offset = none ∨ ∃ n, o.offset = some n ∧ n ≤ 0)) := by
  refine ⟨rfl, rfl, rfl, rfl, ?_, ?_, ?_, ?_, ?_⟩
  · cases hl : o.limit with
    | none => simp [buildBody, hl]
    | some n => by_cases h : n = 0 <;> simp [buildBody, hl, h]
  · cases ho : o.offset with
    | none => simp [buildBody, ho]
    | some n => by_cases h : n = 0 <;> simp [buildBody, ho, h]
  · intro n hn h
    simp [buildBody, hn, h]
  · intro n hn h
    simp [buildBody, hn, h]
  · cases ho : o.offset with
    | none => simp [buildBodyV2, ho]
    | some n =>
      by_cases h : 0 < n
      · simp [buildBodyV2, ho, h]
      · simp [buildBodyV2, ho, h]
        omega

/-- C3 counterexample: with a present-but-empty filters array and offset -1,
the body built by the primary `search` contains the empty `filters` array
(the claim says empty arrays are never included) and contains `offset = -1`,
which is not strictly greater than zero. -/
theorem buildBody_empty_filters_cex :
    (buildBody ⟨"listings", some [], none, none, none, some (-1)⟩).filters = some []
  ∧ (buildBody ⟨"listings", some [], none, none, none, some (-1)⟩).offset = some (-1)
  ∧ ((-1 : Int) < 0) := by decide

/-- C10 (amended): the two `search` implementation variants build identical
request bodies whenever the offset is absent or nonnegative; they differ on
present negative offsets, which the primary variant includes and the
part_001 variant omits. -/
theorem buildBody_variants_agree_nonneg_offset (o : SearchOptions)
    (h : ∀ n, o.offset = some n → 0 ≤ n) :
    buildBody o = buildBodyV2 o := by
  cases ho : o.offset with
  | none => simp [buildBody, buildBodyV2, ho]
  | some n =>
    have h0 := h n ho
    by_cases hz : n = 0
    · simp [buildBody, buildBodyV2, ho, hz]
    · have hpos : 0 < n := lt_of_le_of_ne h0 fun he => hz he.symm
      simp [buildBody, buildBodyV2, ho, hz, hpos]

/-- C10 witness: at a query with offset 3 the nonnegativity hypothesis holds
and the two builders produce the same body. -/
theorem buildBody_variants_agree_nonneg_offset_witness :
    (∀ n, (SearchOptions.mk "prods" none none none (some 10) (some 3)).offset = some n → 0 ≤ n)
  ∧ buildBody (SearchOptions.mk "prods" none none none (some 10) (some 3))
      = buildBodyV2 (SearchOptions.mk "prods" none none none (some 10) (some 3)) := by
  have h : ∀ n, (SearchOptions.mk "prods" none none none (some 10) (some 3)).offset = some n →
      (0 : Int) ≤ n := by
    intro n hn
    simp only [Option.some.injEq] at hn
    omega
  exact ⟨h, buildBody_variants_agree_nonneg_offset _ h⟩

/-- C10 counterexample: at offset -2 the primary variant includes the offset
in the body while the part_001 variant omits it, so the two bodies differ. -/
theorem buildBody_variants_differ_cex :
    (buildBody (SearchOptions.mk "prods" none none none none (some (-2)))).offset = some (-2)
  ∧ (buildBodyV2 (SearchOptions.mk "prods" none none none none (some (-2)))).offset = none := by
  decide

/-- The request the driver builds carries `limit = 100` (100 is nonzero, so
the limit key is kept). -/
theorem driverRequest_limit (o : SearchOptions) (off : Int) :
    (buildBody ⟨o.index, o.filters, o.sort, o.select, some 100, some off⟩).limit = some 100 :=
  rfl

/-- The request the driver builds at offset 0 omits the offset key. -/
theorem driverRequest_offset_zero (o : SearchOptions) :
    (buildBody ⟨o.index, o.filters, o.sort, o.select, some 100, some 0⟩).offset = none :=
  rfl

/-- With fuel left, the first request of the loop is the built body at the
current offset. -/
theorem searchAllLoop_requests_zero {α : Type} (o : SearchOptions) (server : Nat → FetchResult α)
    (fuel k : Nat) (off tf : Int) (h : fuel ≠ 0) :
    (searchAllLoop o server fuel k off tf).requests[0]? =
      some (buildBody ⟨o.index, o.filters, o.sort, o.select, some 100, some off⟩) := by
  cases fuel with
  | zero => exact absurd rfl h
  | succ f =>
    cases hsr : searchRun (server k) with
    | ok resp =>
      simp only [searchAllLoop, hsr]
      split <;> simp
    | searchError m => simp [searchAllLoop, hsr]
    | rawError m => simp [searchAllLoop, hsr]

/-- With fuel left, the first offset the loop passes to `search` is the
current offset. -/
theorem searchAllLoop_offsets_zero {α : Type} (o : SearchOptions) (server : Nat → FetchResult α)
    (fuel k : Nat) (off tf : Int) (h : fuel ≠ 0) :
    (searchAllLoop o server fuel k off tf).offsets[0]? = some off := by
  cases fuel with
  | zero => exact absurd rfl h
  | succ f =>
    cases hsr : searchRun (server k) with
    | ok resp =>
      simp only [searchAllLoop, hsr]
      split <;> simp
    | searchError m => simp [searchAllLoop, hsr]
    | rawError m => simp [searchAllLoop, hsr]

/-- Every request the loop issues carries `limit = 100`. -/
theorem searchAllLoop_requests_limit {α : Type} (o : SearchOptions) (server : Nat → FetchResult α) :
    ∀ (fuel k : Nat) (off tf : Int) (i : Nat) (q : QueryBody),
      (searchAllLoop o server fuel k off tf).requests[i]? = some q → q.limit = some 100 := by
  intro fuel
  induction fuel with
  | zero =>
    intro k off tf i q hq
    simp [searchAllLoop] at hq
  | succ f ih =>
    intro k off tf i q hq
    cases hsr : searchRun (server k) with
    | ok resp =>
      simp only [searchAllLoop, hsr] at hq
      split at hq
      · cases i with
        | zero =>
          simp only [List.getElem?_cons_zero, Option.some.injEq] at hq
          rw [← hq]
          exact driverRequest_limit o off
        | succ i =>
          simp only [List.getElem?_cons_succ] at hq
          exact ih (k + 1) _ _ i q hq
      · cases i with
        | zero =>
          simp only [List.getElem?_cons_zero, Option.some.injEq] at hq
          rw [← hq]
          exact driverRequest_limit o off
        | succ i =>
          simp at hq
    | searchError m =>
      simp only [searchAllLoop, hsr] at hq
      cases i with
      | zero =>
        simp only [List.getElem?_cons_zero, Option.some.injEq] at hq
        rw [← hq]
        exact driverRequest_limit o off
      | succ i =>
        simp at hq
    | rawError m =>
      simp only [searchAllLoop, hsr] at hq
      cases i with
      | zero =>
        simp only [List.getElem?_cons_zero, Option.some.injEq] at hq
        rw [← hq]
        exact driverRequest_limit o off
      | succ i =>
        simp at hq

/-- C7: every page request of a `searchAll` traversal carries `limit = 100`
(the fixed internal page size), and the first request is built at offset 0,
whose key is omitted from the request body. -/
theorem searchAll_requests_limit_and_first_offset {α : Type} (o : SearchOptions)
    (server : Nat → FetchResult α) (fuel : Nat) :
    (∀ (i : Nat) (q : QueryBody),
        (searchAllRun o server fuel).requests[i]? = some q → q.limit = some 100)
  ∧ (∀ q : QueryBody,
        (searchAllRun o server fuel).requests[0]? = some q → q.offset = none) := by
  constructor
  · intro i q hq
    simp only [searchAllRun] at hq
    exact searchAllLoop_requests_limit o server fuel 0 0 0 i q hq
  · intro q hq
    cases fuel with
    | zero => simp [searchAllRun, searchAllLoop] at hq
    | succ f =>
      have h0 := searchAllLoop_requests_zero o server (f + 1) 0 0 0 (by simp)
      simp only [searchAllRun] at hq
      rw [h0, Option.some.injEq] at hq
      rw [← hq]
      exact driverRequest_offset_zero o

/-- Shape of a failed run of the loop: one more request than batches (the
failing request, issued once), the error of the failing page as the outcome,
and every yielded batch equal to the records of the corresponding
successful response. -/
theorem searchAllLoop_failed_shape {α : Type} (o : SearchOptions) (server : Nat → FetchResult α) :
    ∀ (fuel k : Nat) (off tf : Int) (e : ErrOut),
      (searchAllLoop o server fuel k off tf).outcome = .failed e →
      (searchAllLoop o server fuel k off tf).requests.length
          = (searchAllLoop o server fuel k off tf).batches.length + 1
      ∧ errOf (searchRun (server (k + (searchAllLoop o server fuel k off tf).batches.length)))
          = some e
      ∧ ∀ (i : Nat) (x : List α),
          (searchAllLoop o server fuel k off tf).batches[i]? = some x →
          ∃ r, searchRun (server (k + i)) = .ok r ∧ x = r.records := by
  intro fuel
  induction fuel with
  | zero =>
    intro k off tf e he
    simp [searchAllLoop] at he
  | succ f ih =>
    intro k off tf e he
    cases hsr : searchRun (server k) with
    | ok resp =>
      simp only [searchAllLoop, hsr] at he ⊢
      split at he
      · rename_i hlt
        rw [if_pos hlt]
        simp only at he
        obtain ⟨hlen, herr, hbatch⟩ := ih (k + 1) resp.range.«end» (tf + resp.records.length) e he
        refine ⟨by simpa using hlen, ?_, ?_⟩
        · simpa [Nat.add_assoc, Nat.add_comm 1] using herr
        · intro i x hx
          cases i with
          | zero =>
            simp only [List.getElem?_cons_zero, Option.some.injEq] at hx
            exact ⟨resp, by simpa using hsr, hx.symm⟩
          | succ i =>
            simp only [List.getElem?_cons_succ] at hx
            obtain ⟨r, hr, hxr⟩ := hbatch i x hx
            exact ⟨r, by simpa [Nat.add_assoc, Nat.add_comm 1] using hr, hxr⟩
      · simp at he
    | searchError m =>
      simp only [searchAllLoop, hsr] at he ⊢
      refine ⟨by simp, ?_, ?_⟩
      · simp only [List.length_nil, Nat.add_zero, hsr, errOf]
        injection he with he2
        rw [he2]
      · intro i x hx
        simp at hx
    | rawError m =>
      simp only [searchAllLoop, hsr] at he ⊢
      refine ⟨by simp, ?_, ?_⟩
      · simp only [List.length_nil, Nat.add_zero, hsr, errOf]
        injection he with he2
        rw [he2]
      · intro i x hx
        simp at hx

/-- C6: when a page fetch fails during a `searchAll` traversal, the run
terminates abnormally at exactly that point: the failing request was issued
once and only once (one more request than batches, so no retry), the error
the consumer sees is the error of that page fetch, and the batches already
yielded are exactly the records of the preceding successful responses — no
records of the failing page are emitted. -/
theorem searchAll_failure_terminates_trace {α : Type} (o : SearchOptions)
    (server : Nat → FetchResult α) (fuel : Nat) (e : ErrOut)
    (h : (searchAllRun o server fuel).outcome = .failed e) :
    (searchAllRun o server fuel).requests.length = (searchAllRun o server fuel).batches.length + 1
  ∧ errOf (searchRun (server (searchAllRun o server fuel).batches.length)) = some e
  ∧ ∀ (i : Nat) (x : List α),
      (searchAllRun o server fuel).batches[i]? = some x →
      ∃ r, searchRun (server i) = .ok r ∧ x = r.records := by
  simp only [searchAllRun] at h ⊢
  have := searchAllLoop_failed_shape o server fuel 0 0 0 e h
  simpa using this

/-- C6 witness: against the server that succeeds on page 0 and fails with
HTTP 500 and message "boom" on page 1, the traversal fails with exactly that
`SearchError`, issued 2 requests, and yielded the single successful batch. -/
theorem searchAll_failure_terminates_trace_witness :
    (searchAllRun optsIdx failServer 5).outcome = .failed (.searchError "boom")
  ∧ ((searchAllRun optsIdx failServer 5).requests.length
        = (searchAllRun optsIdx failServer 5).batches.length + 1
    ∧ errOf (searchRun (failServer (searchAllRun optsIdx failServer 5).batches.length))
        = some (.searchError "boom")
    ∧ ∀ (i : Nat) (x : List Nat),
        (searchAllRun optsIdx failServer 5).batches[i]? = some x →
        ∃ r, searchRun (failServer i) = .ok r ∧ x = r.records) :=
  ⟨by decide, searchAll_failure_terminates_trace optsIdx failServer 5 _ (by decide)⟩

/-- C2 (amended): the loop is a do-while, so the first page is always
yielded before the termination test. If the first response reports
`total = 0`, the traversal yields exactly ONE batch — the records array of
that first page — and then ends without error. -/
theorem searchAll_total_zero_single_empty_batch {α : Type} (o : SearchOptions)
    (server : Nat → FetchResult α) (r : SearchResponse α) (fuel : Nat)
    (h : searchRun (server 0) = .ok r) (ht : r.total = 0) (hf : fuel ≠ 0) :
    (searchAllRun o server fuel).batches = [r.records]
  ∧ (searchAllRun o server fuel).outcome = .done := by
  obtain ⟨f, rfl⟩ : ∃ f, fuel = f + 1 := ⟨fuel - 1, by omega⟩
  have hn : ¬ ((r.records.length : Int) < r.total) := by
    rw [ht]
    omega
  constructor <;> simp [searchAllRun, searchAllLoop, h, hn]

/-- C2 witness: against the server whose single page reports total 0 with no
records, the hypotheses hold and the traversal yields exactly one empty
batch before completing. -/
theorem searchAll_total_zero_single_empty_batch_witness :
    (searchRun (zeroTotalServer 0) = .ok ⟨0, ⟨0, 0⟩, ([] : List Nat)⟩
      ∧ (⟨0, ⟨0, 0⟩, ([] : List Nat)⟩ : SearchResponse Nat).total = 0
      ∧ (3 : Nat) ≠ 0)
  ∧ ((searchAllRun optsIdx zeroTotalServer 3).batches = [[]]
      ∧ (searchAllRun optsIdx zeroTotalServer 3).outcome = .done) :=
  ⟨⟨rfl, rfl, by decide⟩,
    searchAll_total_zero_single_empty_batch optsIdx zeroTotalServer _ 3 rfl rfl (by decide)⟩

/-- C2 counterexample: with total 0 on the first page the traversal yields
one batch (the empty records array), not the zero batches the claim
states. -/
theorem searchAll_total_zero_yields_one_batch_cex :
    (searchAllRun optsIdx zeroTotalServer 3).batches = [[]]
  ∧ ((searchAllRun optsIdx zeroTotalServer 3).batches.length == 0) = false
  ∧ (searchAllRun optsIdx zeroTotalServer 3).outcome = .done := by
  decide

/-- Every offset after the first one passed by the loop equals the
`range.end` of the response to the preceding request. -/
theorem searchAllLoop_offsets_rel {α : Type} (o : SearchOptions) (server : Nat → FetchResult α) :
    ∀ (fuel k : Nat) (off tf : Int) (i : Nat) (x : Int),
      (searchAllLoop o server fuel k off tf).offsets[i + 1]? = some x →
      ∃ r, searchRun (server (k + i)) = .ok r ∧ x = r.range.«end» := by
  intro fuel
  induction fuel with
  | zero =>
    intro k off tf i x hx
    simp [searchAllLoop] at hx
  | succ f ih =>
    intro k off tf i x hx
    cases hsr : searchRun (server k) with
    | ok resp =>
      simp only [searchAllLoop, hsr] at hx
      split at hx
      · simp only [List.getElem?_cons_succ] at hx
        cases i with
        | zero =>
          cases f with
          | zero => simp [searchAllLoop] at hx
          | succ f2 =>
            rw [searchAllLoop_offsets_zero o server (f2 + 1) (k + 1) resp.range.«end» _
              (by simp)] at hx
            rw [Option.some.injEq] at hx
            exact ⟨resp, by simpa using hsr, hx.symm⟩
        | succ i =>
          obtain ⟨r, hr, hxr⟩ := ih (k + 1) resp.range.«end» _ i x hx
          exact ⟨r, by simpa [Nat.add_assoc, Nat.add_comm 1] using hr, hxr⟩
      · simp at hx
    | searchError m =>
      simp only [searchAllLoop, hsr] at hx
      simp at hx
    | rawError m =>
      simp only [searchAllLoop, hsr] at hx
      simp at hx

/-- When the loop is entered at page `k` with `totalFetched` equal to the
cumulative record count of the earlier pages and completes, the last page
was a successful response whose total equals the cumulative record count at
the end — provided no response reports a total below the records delivered
so far. -/
theorem searchAllLoop_done_sum {α : Type} (o : SearchOptions) (server : Nat → FetchResult α)
    (hno : ∀ (k : Nat) (r : SearchResponse α),
      searchRun (server k) = .ok r → cumLen server (k + 1) ≤ r.total) :
    ∀ (fuel k : Nat) (off : Int),
      (searchAllLoop o server fuel k off (cumLen server k)).outcome = .done →
      ∃ (m : Nat) (r : SearchResponse α),
        (searchAllLoop o server fuel k off (cumLen server k)).batches.length = m + 1
        ∧ searchRun (server (k + m)) = .ok r
        ∧ cumLen server k + sumLens (searchAllLoop o server fuel k off (cumLen server k)).batches
            = r.total := by
  intro fuel
  induction fuel with
  | zero =>
    intro k off h
    simp [searchAllLoop] at h
  | succ f ih =>
    intro k off h
    cases hsr : searchRun (server k) with
    | ok resp =>
      have hcl : cumLen server (k + 1) = cumLen server k + (resp.records.length : Int) := by
        simp [cumLen, hsr]
      simp only [searchAllLoop, hsr] at h ⊢
      split at h
      · rename_i hlt
        rw [if_pos hlt]
        simp only at h
        rw [← hcl] at h ⊢
        obtain ⟨m, r, hb, hsr2, hsum⟩ := ih (k + 1) resp.range.«end» h
        refine ⟨m + 1, r, by simpa using hb, ?_, ?_⟩
        · rw [show k + (m + 1) = k + 1 + m by omega]
          exact hsr2
        · have hsc : sumLens (resp.records :: (searchAllLoop o server f (k + 1)
              resp.range.«end» (cumLen server (k + 1))).batches)
              = (resp.records.length : Int) + sumLens (searchAllLoop o server f (k + 1)
                resp.range.«end» (cumLen server (k + 1))).batches := rfl
          rw [hsc]
          omega
      · rename_i hnlt
        rw [if_neg hnlt]
        have hle := hno k resp hsr
        refine ⟨0, resp, by simp, by simpa using hsr, ?_⟩
        have hsc : sumLens [resp.records] = (resp.records.length : Int) + 0 := rfl
        rw [hsc]
        omega
    | searchError m =>
      simp only [searchAllLoop, hsr] at h
      simp at h
    | rawError m =>
      simp only [searchAllLoop, hsr] at h
      simp at h

/-- Cumulative record counts of the test-suite-shaped server: 2 records
after page 0, then 3 from page 1 on. -/
theorem pages3_cumLen : ∀ k : Nat, cumLen pages3Server (k + 2) = 3 := by
  intro k
  induction k with
  | zero => rfl
  | succ n ih =>
    show cumLen pages3Server (n + 2 + 1) = 3
    rw [cumLen, ih]
    norm_num [pages3Server, searchRun, fetchWithErrorHandling]

/-- The test-suite-shaped server never reports a total smaller than the
records delivered so far. -/
theorem pages3_no_overshoot : ∀ (k : Nat) (r : SearchResponse Nat),
    searchRun (pages3Server k) = .ok r → cumLen pages3Server (k + 1) ≤ r.total := by
  intro k r h
  match k with
  | 0 =>
    rw [show searchRun (pages3Server 0) = SearchOutcome.ok ⟨3, ⟨0, 2⟩, [1, 2]⟩ from rfl] at h
    injection h with h2
    subst h2
    decide
  | 1 =>
    rw [show searchRun (pages3Server 1) = SearchOutcome.ok ⟨3, ⟨2, 3⟩, [3]⟩ from rfl] at h
    injection h with h2
    subst h2
    decide
  | n + 2 =>
    rw [show searchRun (pages3Server (n + 2)) = SearchOutcome.ok ⟨3, ⟨3, 3⟩, []⟩ from rfl] at h
    injection h with h2
    subst h2
    exact (pages3_cumLen (n + 1)).le

/-- C1 (amended): in EVERY traversal — no assumption on the server — the
offset passed for each page after the first equals the `range.end` of the
previous response (never a local increment); and, provided no response
reports a total smaller than the cumulative records delivered (no
overshoot), a completed traversal has yielded batches whose concatenated
length equals the total observed on the final page. The no-overshoot
proviso scopes over the second conjunct only. -/
theorem searchAll_offset_advance_and_total {α : Type} (o : SearchOptions)
    (server : Nat → FetchResult α) (fuel : Nat) :
    (∀ (i : Nat) (x : Int),
        (searchAllRun o server fuel).offsets[i + 1]? = some x →
        ∃ r, searchRun (server i) = .ok r ∧ x = r.range.«end»)
  ∧ ((∀ (k : Nat) (r : SearchResponse α),
        searchRun (server k) = .ok r → cumLen server (k + 1) ≤ r.total) →
      (searchAllRun o server fuel).outcome = .done →
      ∃ (m : Nat) (r : SearchResponse α),
        (searchAllRun o server fuel).batches.length = m + 1
        ∧ searchRun (server m) = .ok r
        ∧ sumLens (searchAllRun o server fuel).batches = r.total) := by
  constructor
  · intro i x hx
    simp only [searchAllRun] at hx
    simpa using searchAllLoop_offsets_rel o server fuel 0 0 0 i x hx
  · intro hno h
    simp only [searchAllRun] at h ⊢
    obtain ⟨m, r, hb, hsr2, hsum⟩ := searchAllLoop_done_sum o server hno fuel 0 0 h
    refine ⟨m, r, hb, by simpa using hsr2, ?_⟩
    have h0 : cumLen server 0 = 0 := rfl
    rw [h0] at hsum
    omega

/-- C1 witness: against the test-suite-shaped server every later offset
equals the previous `range.end`; the no-overshoot proviso of the second
conjunct is discharged at this server, and the completed traversal delivers
exactly the final total of 3 records. -/
theorem searchAll_offset_advance_and_total_witness :
    (∀ (k : Nat) (r : SearchResponse Nat),
        searchRun (pages3Server k) = .ok r → cumLen pages3Server (k + 1) ≤ r.total)
  ∧ ((∀ (i : Nat) (x : Int),
        (searchAllRun optsIdx pages3Server 5).offsets[i + 1]? = some x →
        ∃ r, searchRun (pages3Server i) = .ok r ∧ x = r.range.«end»)
    ∧ ((searchAllRun optsIdx pages3Server 5).outcome = .done →
        ∃ (m : Nat) (r : SearchResponse Nat),
          (searchAllRun optsIdx pages3Server 5).batches.length = m + 1
          ∧ searchRun (pages3Server m) = .ok r
          ∧ sumLens (searchAllRun optsIdx pages3Server 5).batches = r.total)) :=
  ⟨pages3_no_overshoot,
    (searchAll_offset_advance_and_total optsIdx pages3Server 5).1,
    (searchAll_offset_advance_and_total optsIdx pages3Server 5).2 pages3_no_overshoot⟩

/-- C1 counterexample: a sequence of successful responses on which the
claimed equality fails: the server reports total 1 on every page but
returns two records, so the completed traversal emits 2 records while the
final observed total is 1. -/
theorem searchAll_total_overshoot_cex :
    searchRun (overshootServer 0) = .ok ⟨1, ⟨0, 2⟩, [7, 8]⟩
  ∧ (searchAllRun optsIdx overshootServer 3).outcome = .done
  ∧ (searchAllRun optsIdx overshootServer 3).batches = [[7, 8]]
  ∧ (sumLens (searchAllRun optsIdx overshootServer 3).batches == (1 : Int)) = false := by
  decide

/-- Against the pathological server the loop state never advances: every
requested offset is 0, every page adds 0 records, and the loop never
exits. -/
theorem emptyPages_never_done : ∀ (fuel k : Nat),
    (searchAllLoop optsIdx emptyPagesServer fuel k 0 0).outcome = .fuelOut := by
  intro fuel
  induction fuel with
  | zero => intro k; rfl
  | succ f ih =>
    intro k
    have hsr : searchRun (emptyPagesServer k) = .ok ⟨5, ⟨0, 0⟩, []⟩ := rfl
    simp only [searchAllLoop, hsr]
    rw [if_pos (by norm_num)]
    exact ih (k + 1)

/-- If every page succeeds with at least one record and the same reported
total `T`, the loop completes whenever it has fuel beyond the records it
still needs. -/
theorem searchAllLoop_done_of_nonempty {α : Type} (o : SearchOptions)
    (server : Nat → FetchResult α) (T : Nat)
    (hgood : ∀ k, ∃ r, searchRun (server k) = .ok r ∧ r.records ≠ [] ∧ r.total = (T : Int)) :
    ∀ (fuel k : Nat) (off tf : Int), (T : Int) ≤ tf + fuel → fuel ≠ 0 →
      (searchAllLoop o server fuel k off tf).outcome = .done := by
  intro fuel
  induction fuel with
  | zero =>
    intro k off tf hT h0
    exact absurd rfl h0
  | succ f ih =>
    intro k off tf hT _
    obtain ⟨r, hsr, hne, htot⟩ := hgood k
    have hlen : (1 : Int) ≤ (r.records.length : Int) := by
      have : r.records.length ≠ 0 := by
        simpa using hne
      omega
    simp only [searchAllLoop, hsr]
    by_cases hlt : tf + (r.records.length : Int) < r.total
    · rw [if_pos hlt]
      have hf : f ≠ 0 := by
        rw [htot] at hlt
        intro hf0
        rw [hf0] at hT
        push_cast at hT
        omega
      exact ih (k + 1) r.range.«end» (tf + (r.records.length : Int))
        (by rw [htot] at hlt; push_cast at hT ⊢; omega) hf
    · rw [if_neg hlt]

/-- Against the server whose reported total grows by one each page while
delivering one record per page, the loop condition never becomes false:
entering page `k` with `totalFetched = k`, the new count `k + 1` stays below
the reported total `k + 2`. -/
theorem growing_never_done : ∀ (fuel k : Nat) (off : Int),
    (searchAllLoop optsIdx growingServer fuel k off (k : Int)).outcome = .fuelOut := by
  intro fuel
  induction fuel with
  | zero => intro k off; rfl
  | succ f ih =>
    intro k off
    have hsr : searchRun (growingServer k) = .ok ⟨(k : Int) + 2, ⟨(k : Int), (k : Int) + 1⟩, [k]⟩ :=
      rfl
    simp only [searchAllLoop, hsr]
    rw [if_pos (by simp only [List.length_singleton]; push_cast; omega)]
    exact ih (k + 1) ((k : Int) + 1)

/-- C9 (amended): under the stronger precondition that every page succeeds
with at least one record and reports one common total `T`, a traversal with
fuel at least `T + 1` completes; and without the nonempty-records
precondition, the pathological server (positive total, empty records,
`range.end` equal to the requested offset) makes the do-while condition
never false, so the traversal never completes at any fuel. -/
theorem searchAll_termination_dichotomy {α : Type} (o : SearchOptions)
    (server : Nat → FetchResult α) (T fuel : Nat)
    (hgood : ∀ k, ∃ r, searchRun (server k) = .ok r ∧ r.records ≠ [] ∧ r.total = (T : Int))
    (hfuel : T + 1 ≤ fuel) :
    (searchAllRun o server fuel).outcome = .done
  ∧ ∀ f, (searchAllRun optsIdx emptyPagesServer f).outcome = .fuelOut := by
  constructor
  · simp only [searchAllRun]
    exact searchAllLoop_done_of_nonempty o server T hgood fuel 0 0 0
      (by omega) (by omega)
  · intro f
    simp only [searchAllRun]
    exact emptyPages_never_done f 0

/-- C9 witness: the steady server (total 2, one record per page) satisfies
the precondition and its traversal with fuel 3 completes, while the
pathological empty-pages server never completes. -/
theorem searchAll_termination_dichotomy_witness :
    ((∀ k, ∃ r, searchRun (steadyServer k) = .ok r ∧ r.records ≠ []
        ∧ r.total = ((2 : Nat) : Int))
      ∧ 2 + 1 ≤ 3)
  ∧ ((searchAllRun optsIdx steadyServer 3).outcome = .done
      ∧ ∀ f, (searchAllRun optsIdx emptyPagesServer f).outcome = .fuelOut) := by
  have hg : ∀ k, ∃ r, searchRun (steadyServer k) = .ok r ∧ r.records ≠ []
      ∧ r.total = ((2 : Nat) : Int) := by
    intro k
    exact ⟨⟨2, ⟨(k : Int), (k : Int) + 1⟩, [k]⟩, rfl, by simp, by norm_num⟩
  exact ⟨⟨hg, by omega⟩, searchAll_termination_dichotomy optsIdx steadyServer 2 3 hg (by omega)⟩

/-- C9 counterexample: a server on which every response succeeds with at
least one record — the precondition of the claim — and yet the traversal
never terminates, because the reported total grows ahead of the records
delivered. -/
theorem searchAll_nonempty_pages_nontermination_cex :
    allPagesNonempty growingServer ∧ neverCompletes growingServer := by
  constructor
  · intro k
    exact ⟨⟨(k : Int) + 2, ⟨(k : Int), (k : Int) + 1⟩, [k]⟩, rfl, by simp⟩
  · intro fuel
    simp only [searchAllRun]
    exact growing_never_done fuel 0 0

end Searchbase
